import Mathlib

/-!
# Scene Transition extension — shallow embedding

Shallow embedding of the SillyTavern "scene-transition" extension and proofs
about its transition-orchestration logic.  The repository contains two source
variants of the extension:

* variant 0 (the full-featured one): `sceneTransitionCallback` with `style`,
  `max` and `background` named parameters, a free-text note, a stable-diffusion
  availability probe, and a background-generation step that catches its own
  errors;
* variant 1 (the simplified one): `sceneTransitionCallback` with only a
  `background` named parameter (passed as the string "true"/"false"), no probe,
  and a background-generation step whose errors are caught by the callback.

Host-context effects (event emission, message rendering, chat persistence, the
quiet-generation capability, the jQuery background-trigger click) are modelled
as environment-supplied `Except String` outcomes: `.error m` models a thrown
JS error whose `.message` is `m`.  JS string truthiness is `s ≠ ""`.
-/

/-- A chat message as built by `buildAssistantMessage` in the source:
`{ is_user: false, name: charName, send_date: Date.now(), mes: text }`. -/
structure Message where
  is_user : Bool
  name : Option String
  send_date : Nat
  mes : String
  deriving DecidableEq

/-- A JS value as returned by the quiet-generation capability.  `str` is a
string result, `nullish` covers `null`/`undefined`, and `other r` is any other
value whose JS stringification `String(v)` is `r`. -/
inductive JsVal where
  | str (s : String)
  | nullish
  | other (r : String)
  deriving DecidableEq

/-- The persisted per-extension settings blob stored under the key
`'scene-transition-settings'`; both fields may be absent. -/
structure StoredSettings where
  sceneChangeInstructions : Option String
  autoGenerateBackground : Option Bool
  deriving DecidableEq

/-- The stable-diffusion extension settings blob `ctx.extensionSettings.sd`;
`source` is `none` when `sd.source` is absent (JS-falsy `undefined`). -/
structure SdSettings where
  source : Option String
  deriving DecidableEq

/-- Shape of `ctx.extensionSettings`: the scene-transition blob and the
stable-diffusion blob, each possibly absent. -/
structure ExtSettings where
  sceneTrans : Option StoredSettings
  sd : Option SdSettings
  deriving DecidableEq

/-- The result of `getSettings()` after the `{ ...DEFAULT_SETTINGS,
...userSettings }` merge: both recognized options always have a value. -/
structure Settings where
  sceneChangeInstructions : String
  autoGenerateBackground : Bool
  deriving DecidableEq

/-- The host context reached through `getContext()`, restricted to the fields
the orchestration logic reads.  Fallible host operations are modelled as
`Except String Unit` outcomes supplied by the environment (`.error m` models a
thrown error with message `m`). -/
structure Ctx where
  /-- Value of `ctx.characters?.[ctx.characterId]?.name` -/
  charName : Option String
  /-- Value of `Date.now()` at message-build time -/
  now : Nat
  /-- the conversation list `ctx.chat` at entry -/
  chat : List Message
  /-- whether `ctx.generateQuietPrompt` is wired in -/
  genAvailable : Bool
  /-- outcome of the `generateQuietPrompt` call: a thrown error or a JS value -/
  genResult : Except String JsVal
  /-- Host operation `ctx.substituteParams` (placeholder substitution, delegated to the host) -/
  subst : String → String
  /-- Value of `ctx.extensionSettings`; `none` models it being `undefined` -/
  extSettings : Option ExtSettings
  /-- outcome of `eventSource.emit(MESSAGE_RECEIVED, ...)` -/
  emitReceived : Except String Unit
  /-- outcome of `ctx.addOneMessage(msg)` -/
  addOne : Except String Unit
  /-- outcome of `eventSource.emit(CHARACTER_MESSAGE_RENDERED, ...)` -/
  emitRendered : Except String Unit
  /-- outcome of `ctx.saveChat()` -/
  saveChat : Except String Unit
  /-- outcome of the jQuery background-trigger click in `generateBackgroundImage` -/
  bgClick : Except String Unit

/-- Named arguments of variant 0's `/scene` command.  The slash-command parser
delivers `style` and `max` as strings; `background` is the boolean override. -/
structure Named0 where
  style : Option String
  max : Option String
  background : Option Bool

/-- Named arguments of variant 1's `/scene` command: only `background`,
delivered as a string compared against `'true'`. -/
structure Named1 where
  background : Option String

/-- Output of variant 0's `generateSceneLine`, together with the token budget
that was actually passed to the quiet-generation capability (`none` when the
capability was never invoked). -/
structure GenOut where
  line : String
  budgetUsed : Option Nat
  deriving DecidableEq

/-- Observable result of one `sceneTransitionCallback` run: the outcome
string, the final conversation list, whether line 237's
`isStableDiffusionAvailable()` probe was evaluated, whether the background
trigger fired, and the token budget passed to generation (if any). -/
structure ExecOut where
  outcome : String
  chat : List Message
  probeEvaluated : Bool
  bgFired : Bool
  budgetUsed : Option Nat
  deriving DecidableEq

/-- Variant 0's `DEFAULT_SETTINGS.sceneChangeInstructions`. -/
def default0Instr : String :=
  "Write a scene transition, using the perspective of \x7b\x7bchar\x7d\x7d. If the existing conversation indicates that the story hand reached the end of an event, describe the beginning of a new situation where \x7b\x7bchar\x7d\x7d and \x7b\x7buser\x7d\x7d would interact again. Otherwise, transition \x7b\x7bchar\x7d\x7d and \x7b\x7buser\x7d\x7d to a new location that would make sense. Describe the sight and sound of the new environment briefly, then have \x7b\x7bchar\x7d\x7d start the interaction with \x7b\x7buser\x7d\x7d in this new setting. Do not write dialog for \x7b\x7buser\x7d\x7d. If the location change warrants a new outfit and there\x27s logically a gap in the timeline where \x7b\x7bchar\x7d\x7d could have changed, feel free to mention the outfit change briefly."

/-- Variant 1's `DEFAULT_SETTINGS.sceneChangeInstructions`. -/
def default1Instr : String :=
  "Write a scene transition in the perspective of \x7b\x7bchar\x7d\x7d. If the current scene had reached its conclusion, describe the beginning of a new situation where \x7b\x7bchar\x7d\x7d and \x7b\x7buser\x7d\x7d would interact again. Otherwise, transition \x7b\x7bchar\x7d\x7d and \x7b\x7buser\x7d\x7d to a new location that would make sense. Describe the sight and sound of the new environment briefly, and insert a short description of a new outfit for \x7b\x7bchar\x7d\x7d if this is a new situation,then have \x7b\x7bchar\x7d\x7d start the interaction with \x7b\x7buser\x7d\x7d in this new setting. Do not write dialog for \x7b\x7buser\x7d\x7d."

/-- The built-in generic note substituted by variant 0's callback when the
free-text note is absent, non-string, or trims to empty:
`"Allow the character to transition to a new scene that makes sense."`. -/
def defaultNote : String :=
  "Allow the character to transition to a new scene that makes sense."

/-- Message of the `TypeError` thrown when `getSettings()` indexes
`ctx.extensionSettings` while it is `undefined`. -/
def settingsTypeError : String :=
  "Cannot read properties of undefined (reading \x27scene-transition-settings\x27)"

/-- ASCII whitespace, the fragment of the JS whitespace class exercised by
this extension's inputs. -/
def isWs (c : Char) : Bool :=
  c == ' ' || c == '\t' || c == '\n' || c == '\r'

/-- Drop leading whitespace characters. -/
def dropWhileWs : List Char → List Char
  | [] => []
  | c :: cs => if isWs c then dropWhileWs cs else c :: cs

/-- JS `String.prototype.trim()`: strip leading and trailing whitespace. -/
def jsTrim (s : String) : String :=
  ⟨(dropWhileWs ((dropWhileWs s.data).reverse)).reverse⟩

/-- Embedding of `typeof result === 'string' ? result.trim() : String(result ?? '').trim()`
from `generateSceneLine`. -/
def jsvalToLine : JsVal → String
  | .str s => jsTrim s
  | .nullish => ""
  | .other r => jsTrim r

/-- Decimal digit test. -/
def isDigitCh (c : Char) : Bool := 48 ≤ c.toNat && c.toNat ≤ 57

/-- Accumulating decimal parser over the character list. -/
def decToNatAux : List Char → Nat → Option Nat
  | [], acc => some acc
  | c :: cs, acc =>
    if isDigitCh c then decToNatAux cs (acc * 10 + (c.toNat - 48)) else none

/-- Parse a non-empty all-digit decimal string; `none` otherwise. -/
def decToNat (s : String) : Option Nat :=
  match s.data with
  | [] => none
  | _ :: _ => decToNatAux s.data 0

/-- JS `Number()` restricted to the canonical decimal strings the token budget
takes in this extension (the arguments the claims quantify over). -/
def jsNumber (s : String) : Nat := (decToNat s).getD 0

/-- Shared body of `getSettings()` with the given default instruction text:
`{ ...DEFAULT_SETTINGS, ...(ctx.extensionSettings[KEY] || {}) }`.  Throws a
`TypeError` when `ctx.extensionSettings` itself is `undefined`. -/
def getSettingsWith (dflt : String) (ctx : Ctx) : Except String Settings :=
  match ctx.extSettings with
  | none => .error settingsTypeError
  | some es =>
    let user := es.sceneTrans.getD ⟨none, none⟩
    .ok { sceneChangeInstructions := user.sceneChangeInstructions.getD dflt,
          autoGenerateBackground := user.autoGenerateBackground.getD false }

/-- Variant 0's `getSettings()`. -/
def getSettings0 (ctx : Ctx) : Except String Settings :=
  getSettingsWith default0Instr ctx

/-- Variant 1's `getSettings()`. -/
def getSettings1 (ctx : Ctx) : Except String Settings :=
  getSettingsWith default1Instr ctx

/-- The fixed allow-list of recognized stable-diffusion sources from
`isStableDiffusionAvailable`. -/
def validSources : List String :=
  ["extras", "horde", "auto", "vlad", "drawthings", "novel", "openai",
   "comfy", "togetherai", "pollinations", "stability", "huggingface",
   "nanogpt", "bfl", "falai", "xai", "google"]

/-- Probe `isStableDiffusionAvailable()`: false when `ctx.extensionSettings`, the
`sd` blob, or `sd.source` is missing/falsy; otherwise membership of the source
in the allow-list.  Its own `try`/`catch` returns false on any error. -/
def isStableDiffusionAvailable (ctx : Ctx) : Bool :=
  match ctx.extSettings with
  | none => false
  | some es =>
    match es.sd with
    | none => false
    | some sd =>
      match sd.source with
      | none => false
      | some src => src ≠ "" && validSources.contains src

/-- The style section of the directive:
interpolation of `style ? "Style hint: " + style : ""`. -/
def styleLine (style : Option String) : String :=
  match style with
  | some s => if s ≠ "" then "Style hint: " ++ s else ""
  | none => ""

/-- The notes section of the directive:
interpolation of `instruction ? "Scene notes: " + instruction : ""`. -/
def notesLine (instruction : String) : String :=
  if instruction ≠ "" then "Scene notes: " ++ instruction else ""

/-- Variant 0's directive template from `generateSceneLine` (before
placeholder substitution): marker line, instruction text, style line, notes
line, trailing output-format constraint, joined by newlines exactly as in the
template literal. -/
def composePrompt0 (sci : String) (style : Option String) (instruction : String) : String :=
  "[OOC Scene Direction]\n" ++ sci ++ "\n" ++ styleLine style ++ "\n"
    ++ notesLine instruction
    ++ "\nReturn only the character\x27s spoken or internal line (no extra narrative)."

/-- Variant 0's diagnostic placeholder:
`` `[DEBUG] Scene transition test - ${instruction || 'no instruction'} ${style ? `(style: ${style})` : ''}` ``. -/
def testMessage0 (instruction : String) (style : Option String) : String :=
  "[DEBUG] Scene transition test - "
    ++ (if instruction ≠ "" then instruction else "no instruction")
    ++ " "
    ++ (match style with
        | some s => if s ≠ "" then "(style: " ++ s ++ ")" else ""
        | none => "")

/-- The note resolution at the top of variant 0's callback:
`typeof unnamed === 'string' && unnamed.trim() ? unnamed : <defaultNote>`
(`none` models a non-string or absent positional argument). -/
def resolveNote (unnamed : Option String) : String :=
  match unnamed with
  | some s => if jsTrim s ≠ "" then s else defaultNote
  | none => defaultNote

/-- Embedding of `const style = named?.style || undefined;` — an empty style string
collapses to `undefined`. -/
def styleOf (named : Named0) : Option String :=
  match named.style with
  | some s => if s ≠ "" then some s else none
  | none => none

/-- Embedding of `const max = named?.max || "120";` — absent or empty collapses to the
default string `"120"`. -/
def maxOf (named : Named0) : String :=
  match named.max with
  | some s => if s ≠ "" then s else "120"
  | none => "120"

/-- The Trigger Decision of variant 0 (Policy A, availability-gated):
`generateBg !== undefined ? generateBg
  : settings.autoGenerateBackground && isSDAvailable`. -/
def decideA (explicitFlag : Option Bool) (auto : Bool) (sdAvailable : Bool) : Bool :=
  match explicitFlag with
  | some b => b
  | none => auto && sdAvailable

/-- The Trigger Decision of variant 1 (Policy B, ungated):
`generateBg !== undefined ? generateBg : settings.autoGenerateBackground`. -/
def decideB (explicitFlag : Option Bool) (auto : Bool) : Bool :=
  match explicitFlag with
  | some b => b
  | none => auto

/-- Embedding of `buildAssistantMessage({ text })`. -/
def buildAssistantMessage (ctx : Ctx) (text : String) : Message :=
  { is_user := false, name := ctx.charName, send_date := ctx.now, mes := text }

/-- Embedding of `insertAssistantMessage(text)`: pushes the built message onto the chat
first, then runs the message-received emit, `addOneMessage`, the
message-rendered emit, and `saveChat` in order.  Returns the chat as mutated
(the push is never rolled back) and the message of the first error, if any
(the `catch` logs and rethrows, so an error propagates to the caller). -/
def insertAssistantMessage (ctx : Ctx) (text : String) :
    List Message × Option String :=
  let msg := buildAssistantMessage ctx text
  let chat' := ctx.chat ++ [msg]
  match ctx.emitReceived with
  | .error m => (chat', some m)
  | .ok _ =>
    match ctx.addOne with
    | .error m => (chat', some m)
    | .ok _ =>
      match ctx.emitRendered with
      | .error m => (chat', some m)
      | .ok _ =>
        match ctx.saveChat with
        | .error m => (chat', some m)
        | .ok _ => (chat', none)

/-- Variant 0's `generateBackgroundImage()`: triggers the jQuery click and
catches any error itself, returning `null` (`none`) in that case — it never
raises. -/
def generateBackgroundImage0 (ctx : Ctx) : Option Unit :=
  match ctx.bgClick with
  | .ok _ => some ()
  | .error _ => none

/-- Variant 0's `generateSceneLine({ instruction, style, maxTokens })`.
Every path is caught: an unavailable capability or any thrown error (from
`getSettings` or the generation call) yields the diagnostic placeholder.  On
success the result is stringified/trimmed.  `budgetUsed` records the
`maxTokens ? Number(maxTokens) : 120` value passed to the capability. -/
def generateSceneLine0 (ctx : Ctx) (instruction : String) (style : Option String)
    (maxTokens : String) : GenOut :=
  if !ctx.genAvailable then
    ⟨testMessage0 instruction style, none⟩
  else
    match getSettings0 ctx with
    | .error _ => ⟨testMessage0 instruction style, none⟩
    | .ok st =>
      let sci := if st.sceneChangeInstructions ≠ "" then st.sceneChangeInstructions
                 else default0Instr
      let _quietPrompt := ctx.subst (composePrompt0 sci style instruction)
      let budget := if maxTokens ≠ "" then jsNumber maxTokens else 120
      match ctx.genResult with
      | .error _ => ⟨testMessage0 instruction style, some budget⟩
      | .ok v => ⟨jsvalToLine v, some budget⟩

/-- Variant 1's `generateSceneLine()`: no parameters, no token budget; an
unavailable capability yields `"[DEBUG] Scene transition failed"`, and a
thrown error yields `` `[DEBUG] Scene transition failed: ${error.message}` ``. -/
def generateSceneLine1 (ctx : Ctx) : String :=
  if !ctx.genAvailable then
    "[DEBUG] Scene transition failed"
  else
    match getSettings1 ctx with
    | .error m => "[DEBUG] Scene transition failed: " ++ m
    | .ok st =>
      let sci := if st.sceneChangeInstructions ≠ "" then st.sceneChangeInstructions
                 else default1Instr
      let _quietPrompt := ctx.subst sci
      match ctx.genResult with
      | .error m => "[DEBUG] Scene transition failed: " ++ m
      | .ok v => jsvalToLine v

/-- Variant 0's `sceneTransitionCallback(named, unnamed)`.  The whole body is
inside a `try` whose `catch` returns `"Error: " + error.message`; the only
steps that can throw are message insertion and the post-insertion
`getSettings()`.  `probeEvaluated` records execution of the unconditional
`const isSDAvailable = isStableDiffusionAvailable();` statement. -/
def sceneTransitionCallback0 (ctx : Ctx) (named : Named0) (unnamed : Option String) :
    ExecOut :=
  let instruction := resolveNote unnamed
  let style := styleOf named
  let max := maxOf named
  let generateBg := named.background
  let gen := generateSceneLine0 ctx instruction style max
  if gen.line ≠ "" then
    match insertAssistantMessage ctx gen.line with
    | (chat', some m) =>
      ⟨"Error: " ++ m, chat', false, false, gen.budgetUsed⟩
    | (chat', none) =>
      match getSettings0 ctx with
      | .error m => ⟨"Error: " ++ m, chat', false, false, gen.budgetUsed⟩
      | .ok st =>
        let isSDAvailable := isStableDiffusionAvailable ctx
        let shouldBg := decideA generateBg st.autoGenerateBackground isSDAvailable
        if shouldBg then
          match generateBackgroundImage0 ctx with
          | some _ => ⟨"Scene line inserted.", chat', true, true, gen.budgetUsed⟩
          | none => ⟨"Scene line inserted.", chat', true, true, gen.budgetUsed⟩
        else
          ⟨"Scene line inserted.", chat', true, false, gen.budgetUsed⟩
  else
    ⟨"No output generated.", ctx.chat, false, false, gen.budgetUsed⟩

/-- Variant 1's `sceneTransitionCallback(named, unnamed)`:
`background` arrives as a string and is coerced by `named.background ===
'true'`; the background step (a bare jQuery click here) sits in a
`try`/`catch` that discards the error (log-only). -/
def sceneTransitionCallback1 (ctx : Ctx) (named : Named1) : ExecOut :=
  let generateBg : Option Bool :=
    match named.background with
    | some s => some (s == "true")
    | none => none
  let line := generateSceneLine1 ctx
  if line ≠ "" then
    match insertAssistantMessage ctx line with
    | (chat', some m) => ⟨"Error: " ++ m, chat', false, false, none⟩
    | (chat', none) =>
      match getSettings1 ctx with
      | .error m => ⟨"Error: " ++ m, chat', false, false, none⟩
      | .ok st =>
        let shouldBg := decideB generateBg st.autoGenerateBackground
        if shouldBg then
          match ctx.bgClick with
          | .ok _ => ⟨"Scene line inserted.", chat', false, true, none⟩
          | .error _ => ⟨"Scene line inserted.", chat', false, true, none⟩
        else
          ⟨"Scene line inserted.", chat', false, false, none⟩
  else
    ⟨"No output generated.", ctx.chat, false, false, none⟩

/-- Test `startsList n h`: decides whether the char list `n` is an initial segment
of `h`. -/
def startsList : List Char → List Char → Bool
  | [], _ => true
  | _ :: _, [] => false
  | a :: as, b :: bs => a == b && startsList as bs

/-- Test `hasSub n h`: decides whether the char list `n` occurs contiguously in `h`. -/
def hasSub (needle : List Char) : List Char → Bool
  | [] => startsList needle []
  | c :: cs => startsList needle (c :: cs) || hasSub needle cs

/-- Decidable substring test on strings (used to state containment and
non-containment of error messages in placeholders). -/
def strContainsSub (hay needle : String) : Bool :=
  hasSub needle.data hay.data

/-- A benign baseline context: everything wired and succeeding, generation
returning `"Hello there."`, stable-diffusion configured with source `auto`. -/
def ctxBase : Ctx :=
  { charName := some "Alice"
    now := 0
    chat := []
    genAvailable := true
    genResult := .ok (.str "Hello there.")
    subst := fun s => s
    extSettings := some
      { sceneTrans := some { sceneChangeInstructions := none, autoGenerateBackground := some false }
        sd := some { source := some "auto" } }
    emitReceived := .ok ()
    addOne := .ok ()
    emitRendered := .ok ()
    saveChat := .ok ()
    bgClick := .ok () }

/-- Baseline named arguments for variant 0: nothing supplied. -/
def named0Base : Named0 := ⟨none, none, none⟩

/-! ## Helper lemmas -/

theorem strAppend_assoc (a b c : String) : a ++ b ++ c = a ++ (b ++ c) :=
  String.ext (List.append_assoc a.data b.data c.data)

theorem head_append (a b : String) (c : Char) (cs : List Char) (h : a.data = c :: cs) :
    (a ++ b).data.head? = some c := by
  show (a.data ++ b.data).head? = some c
  rw [h]
  rfl

theorem err_ne_noOutput (m : String) : "Error: " ++ m ≠ "No output generated." := by
  intro h
  have h1 : ("Error: " ++ m).data.head? = some 'E' :=
    head_append _ _ 'E' "rror: ".data (by decide)
  rw [h] at h1
  exact absurd h1 (by decide)

theorem debug_append_ne_empty (r : String) : "[DEBUG]" ++ r ≠ "" := by
  intro h
  have h1 : ("[DEBUG]" ++ r).data.head? = some '[' :=
    head_append _ _ '[' "DEBUG]".data (by decide)
  rw [h] at h1
  exact absurd h1 (by decide)

/-- The message push always happens before the fallible notification and save
steps, and is never rolled back. -/
theorem insertAssistantMessage_fst (ctx : Ctx) (text : String) :
    (insertAssistantMessage ctx text).1 = ctx.chat ++ [buildAssistantMessage ctx text] := by
  unfold insertAssistantMessage
  repeat first | rfl | split

/-- When every host step succeeds, insertion returns the pushed chat and no
error. -/
theorem insertAssistantMessage_ok (ctx : Ctx) (text : String)
    (hr : ctx.emitReceived = .ok ()) (ha : ctx.addOne = .ok ())
    (hd : ctx.emitRendered = .ok ()) (hs : ctx.saveChat = .ok ()) :
    insertAssistantMessage ctx text = (ctx.chat ++ [buildAssistantMessage ctx text], none) := by
  unfold insertAssistantMessage
  rw [hr, ha, hd, hs]

/-- Resolution `getSettings` succeeds whenever `ctx.extensionSettings` exists. -/
theorem getSettingsWith_ok (dflt : String) (ctx : Ctx) (es : ExtSettings)
    (hes : ctx.extSettings = some es) :
    getSettingsWith dflt ctx =
      .ok { sceneChangeInstructions := (es.sceneTrans.getD ⟨none, none⟩).sceneChangeInstructions.getD dflt,
            autoGenerateBackground := (es.sceneTrans.getD ⟨none, none⟩).autoGenerateBackground.getD false } := by
  unfold getSettingsWith
  rw [hes]

/-- Variant 0's callback passes the generation step's token budget through
unchanged to its result on every path. -/
theorem callback0_budget (ctx : Ctx) (named : Named0) (unnamed : Option String) :
    (sceneTransitionCallback0 ctx named unnamed).budgetUsed
      = (generateSceneLine0 ctx (resolveNote unnamed) (styleOf named) (maxOf named)).budgetUsed := by
  simp only [sceneTransitionCallback0]
  repeat first | rfl | split

/-- When the capability is wired and the settings blob exists, generation is
invoked with budget `maxTokens ? Number(maxTokens) : 120`. -/
theorem gen0_budget (ctx : Ctx) (i : String) (s : Option String) (mt : String)
    (es : ExtSettings) (hga : ctx.genAvailable = true) (hes : ctx.extSettings = some es) :
    (generateSceneLine0 ctx i s mt).budgetUsed
      = some (if mt ≠ "" then jsNumber mt else 120) := by
  unfold generateSceneLine0
  rw [hga, getSettings0, getSettingsWith_ok default0Instr ctx es hes]
  cases ctx.genResult <;> rfl

/-- On a structurally unavailable capability or a raising generation call,
variant 0's generation step yields the diagnostic placeholder. -/
theorem gen0_placeholder (ctx : Ctx) (i : String) (s : Option String) (mt : String)
    (hfail : ctx.genAvailable = false ∨ ∃ m, ctx.genResult = .error m) :
    (generateSceneLine0 ctx i s mt).line = testMessage0 i s := by
  unfold generateSceneLine0
  rcases hfail with h | ⟨m, h⟩
  · rw [h]
    rfl
  · cases hga : ctx.genAvailable
    · rfl
    · cases hgs : getSettings0 ctx
      · rfl
      · rw [h]
        rfl

/-- The variant-0 placeholder always starts with `[DEBUG]`. -/
theorem testMessage0_debug (i : String) (s : Option String) :
    ∃ rest, testMessage0 i s = "[DEBUG]" ++ rest := by
  refine ⟨" Scene transition test - "
    ++ ((if i ≠ "" then i else "no instruction")
        ++ (" " ++ (match s with
            | some x => if x ≠ "" then "(style: " ++ x ++ ")" else ""
            | none => ""))), ?_⟩
  unfold testMessage0
  rw [show ("[DEBUG] Scene transition test - " : String)
        = "[DEBUG]" ++ " Scene transition test - " from by decide]
  rw [strAppend_assoc, strAppend_assoc, strAppend_assoc]

/-- Splitting a known prefix off a string concatenation. -/
theorem append_split (a b c d : String) (hab : a = b ++ c) : a ++ d = b ++ (c ++ d) := by
  rw [hab, strAppend_assoc]

/-- On failure, variant 1's generation step yields a `[DEBUG]`-prefixed
placeholder. -/
theorem gen1_placeholder (ctx : Ctx)
    (hfail : ctx.genAvailable = false ∨ ∃ m, ctx.genResult = .error m) :
    ∃ rest, generateSceneLine1 ctx = "[DEBUG]" ++ rest := by
  unfold generateSceneLine1
  rcases hfail with h | ⟨m, h⟩
  · simp only [h, Bool.not_false, if_true]
    exact ⟨" Scene transition failed", by decide⟩
  · cases hga : ctx.genAvailable
    · simp only [Bool.not_false, if_true]
      exact ⟨" Scene transition failed", by decide⟩
    · simp only [Bool.not_true, Bool.false_eq_true, if_false]
      cases hgs : getSettings1 ctx with
      | error e =>
        exact ⟨" Scene transition failed: " ++ e,
          append_split _ "[DEBUG]" " Scene transition failed: " e (by decide)⟩
      | ok st =>
        simp only [h]
        exact ⟨" Scene transition failed: " ++ m,
          append_split _ "[DEBUG]" " Scene transition failed: " m (by decide)⟩

/-- Success path of variant 0: wired settings, successful insertion, non-empty
line.  The outcome is the success message, the chat gains exactly the built
message, and the stable-diffusion probe statement has been executed —
regardless of the explicit background flag. -/
theorem callback0_success (ctx : Ctx) (n0 : Named0) (u : Option String) (es : ExtSettings)
    (hr : ctx.emitReceived = .ok ()) (ha : ctx.addOne = .ok ())
    (hd : ctx.emitRendered = .ok ()) (hs : ctx.saveChat = .ok ())
    (hes : ctx.extSettings = some es)
    (hl : (generateSceneLine0 ctx (resolveNote u) (styleOf n0) (maxOf n0)).line ≠ "") :
    (sceneTransitionCallback0 ctx n0 u).outcome = "Scene line inserted."
    ∧ (sceneTransitionCallback0 ctx n0 u).chat
        = ctx.chat ++ [buildAssistantMessage ctx
            (generateSceneLine0 ctx (resolveNote u) (styleOf n0) (maxOf n0)).line]
    ∧ (sceneTransitionCallback0 ctx n0 u).probeEvaluated = true := by
  have hins := insertAssistantMessage_ok ctx
    (generateSceneLine0 ctx (resolveNote u) (styleOf n0) (maxOf n0)).line hr ha hd hs
  have hgs := getSettingsWith_ok default0Instr ctx es hes
  simp only [sceneTransitionCallback0]
  split
  case isTrue _ =>
    rw [hins]
    simp only [getSettings0, hgs]
    split
    · split <;> exact ⟨rfl, rfl, rfl⟩
    · exact ⟨rfl, rfl, rfl⟩
  case isFalse h => exact absurd hl h

/-- Success path of variant 1. -/
theorem callback1_success (ctx : Ctx) (n1 : Named1) (es : ExtSettings)
    (hr : ctx.emitReceived = .ok ()) (ha : ctx.addOne = .ok ())
    (hd : ctx.emitRendered = .ok ()) (hs : ctx.saveChat = .ok ())
    (hes : ctx.extSettings = some es)
    (hl : generateSceneLine1 ctx ≠ "") :
    (sceneTransitionCallback1 ctx n1).outcome = "Scene line inserted."
    ∧ (sceneTransitionCallback1 ctx n1).chat
        = ctx.chat ++ [buildAssistantMessage ctx (generateSceneLine1 ctx)] := by
  have hins := insertAssistantMessage_ok ctx (generateSceneLine1 ctx) hr ha hd hs
  have hgs := getSettingsWith_ok default1Instr ctx es hes
  simp only [sceneTransitionCallback1]
  split
  case isTrue _ =>
    rw [hins]
    simp only [getSettings1, hgs]
    split
    · split <;> exact ⟨rfl, rfl⟩
    · exact ⟨rfl, rfl⟩
  case isFalse h => exact absurd hl h

/-- Whenever the generated line is non-empty, variant 0's callback leaves the
conversation as the old conversation plus exactly the built message — on every
path, including the failing ones (the push is never rolled back). -/
theorem callback0_chat_of_ne (ctx : Ctx) (n0 : Named0) (u : Option String)
    (hl : (generateSceneLine0 ctx (resolveNote u) (styleOf n0) (maxOf n0)).line ≠ "") :
    (sceneTransitionCallback0 ctx n0 u).chat
      = ctx.chat ++ [buildAssistantMessage ctx
          (generateSceneLine0 ctx (resolveNote u) (styleOf n0) (maxOf n0)).line] := by
  have hfst := insertAssistantMessage_fst ctx
    (generateSceneLine0 ctx (resolveNote u) (styleOf n0) (maxOf n0)).line
  simp only [sceneTransitionCallback0]
  split
  case isTrue _ =>
    split
    · rename_i chat' m heq
      exact (congrArg Prod.fst heq).symm.trans hfst
    · rename_i chat' heq
      have hc := (congrArg Prod.fst heq).symm.trans hfst
      repeat first | exact hc | split
  case isFalse h => exact absurd hl h

/-- Same for variant 1. -/
theorem callback1_chat_of_ne (ctx : Ctx) (n1 : Named1)
    (hl : generateSceneLine1 ctx ≠ "") :
    (sceneTransitionCallback1 ctx n1).chat
      = ctx.chat ++ [buildAssistantMessage ctx (generateSceneLine1 ctx)] := by
  have hfst := insertAssistantMessage_fst ctx (generateSceneLine1 ctx)
  simp only [sceneTransitionCallback1]
  split
  case isTrue _ =>
    split
    · rename_i chat' m heq
      exact (congrArg Prod.fst heq).symm.trans hfst
    · rename_i chat' heq
      have hc := (congrArg Prod.fst heq).symm.trans hfst
      repeat first | exact hc | split
  case isFalse h => exact absurd hl h

/-- Whenever the generated line is non-empty, variant 0's outcome is either
the success message or an error message. -/
theorem callback0_outcome_of_ne (ctx : Ctx) (n0 : Named0) (u : Option String)
    (hl : (generateSceneLine0 ctx (resolveNote u) (styleOf n0) (maxOf n0)).line ≠ "") :
    (sceneTransitionCallback0 ctx n0 u).outcome = "Scene line inserted."
    ∨ ∃ m, (sceneTransitionCallback0 ctx n0 u).outcome = "Error: " ++ m := by
  simp only [sceneTransitionCallback0]
  split
  case isTrue _ =>
    repeat' split
    all_goals first
      | exact Or.inl rfl
      | exact Or.inr ⟨_, rfl⟩
  case isFalse h => exact absurd hl h

/-- Same for variant 1. -/
theorem callback1_outcome_of_ne (ctx : Ctx) (n1 : Named1)
    (hl : generateSceneLine1 ctx ≠ "") :
    (sceneTransitionCallback1 ctx n1).outcome = "Scene line inserted."
    ∨ ∃ m, (sceneTransitionCallback1 ctx n1).outcome = "Error: " ++ m := by
  simp only [sceneTransitionCallback1]
  split
  case isTrue _ =>
    repeat' split
    all_goals first
      | exact Or.inl rfl
      | exact Or.inr ⟨_, rfl⟩
  case isFalse h => exact absurd hl h

/-! ## Claim theorems -/

/-- C1: for every request, `execute()` (the slash-command callback, in both
source variants) returns exactly one of `"Scene line inserted."`,
`"No output generated."`, or `"Error: "` followed by the error's message
text; the embedding is a total function — the top-level `catch` converts any
exception raised outside the background-trigger band (insertion failure,
configuration-resolution failure) into the error outcome, so no exception
escapes the entry point. -/
theorem C1_outcome_trichotomy (ctx : Ctx) (n0 : Named0) (u : Option String) (n1 : Named1) :
    ((sceneTransitionCallback0 ctx n0 u).outcome = "Scene line inserted."
      ∨ (sceneTransitionCallback0 ctx n0 u).outcome = "No output generated."
      ∨ ∃ m, (sceneTransitionCallback0 ctx n0 u).outcome = "Error: " ++ m)
    ∧ ((sceneTransitionCallback1 ctx n1).outcome = "Scene line inserted."
      ∨ (sceneTransitionCallback1 ctx n1).outcome = "No output generated."
      ∨ ∃ m, (sceneTransitionCallback1 ctx n1).outcome = "Error: " ++ m) := by
  constructor
  · simp only [sceneTransitionCallback0]
    repeat' split
    all_goals first
      | exact Or.inl rfl
      | exact Or.inr (Or.inl rfl)
      | exact Or.inr (Or.inr ⟨_, rfl⟩)
  · simp only [sceneTransitionCallback1]
    repeat' split
    all_goals first
      | exact Or.inl rfl
      | exact Or.inr (Or.inl rfl)
      | exact Or.inr (Or.inr ⟨_, rfl⟩)

/-- C3: if the generation step yields an empty line, the callback returns
exactly `"No output generated."`, appends nothing to the conversation, does
not evaluate the stable-diffusion probe, and fires no background trigger. -/
theorem C3_empty_line_stops (ctx : Ctx) (n0 : Named0) (u : Option String)
    (h : (generateSceneLine0 ctx (resolveNote u) (styleOf n0) (maxOf n0)).line = "") :
    (sceneTransitionCallback0 ctx n0 u).outcome = "No output generated."
    ∧ (sceneTransitionCallback0 ctx n0 u).chat = ctx.chat
    ∧ (sceneTransitionCallback0 ctx n0 u).probeEvaluated = false
    ∧ (sceneTransitionCallback0 ctx n0 u).bgFired = false := by
  refine ⟨?_, ?_, ?_, ?_⟩ <;> simp [sceneTransitionCallback0, h]

/-- Witness for C3: a backend returning `null` stringifies and trims to the
empty line, and the callback stops with `"No output generated."` leaving the
conversation untouched. -/
theorem C3_witness :
    (generateSceneLine0 { ctxBase with genResult := Except.ok JsVal.nullish }
        (resolveNote none) (styleOf named0Base) (maxOf named0Base)).line = ""
    ∧ (sceneTransitionCallback0 { ctxBase with genResult := Except.ok JsVal.nullish }
        named0Base none).outcome = "No output generated."
    ∧ (sceneTransitionCallback0 { ctxBase with genResult := Except.ok JsVal.nullish }
        named0Base none).chat = [] := by
  have h : (generateSceneLine0 { ctxBase with genResult := Except.ok JsVal.nullish }
      (resolveNote none) (styleOf named0Base) (maxOf named0Base)).line = "" := by decide
  have hc := C3_empty_line_stops { ctxBase with genResult := Except.ok JsVal.nullish }
    named0Base none h
  exact ⟨h, hc.1, hc.2.1⟩

/-- C4: the Trigger Decision returns the explicit flag verbatim whenever it
is defined (explicit always wins); when it is undefined it returns
`autoTriggerBackground AND sdAvailable` under Policy A (variant 0) and
`autoTriggerBackground` alone under Policy B (variant 1); in particular
`decide(true, {auto: false}) = true` and `decide(false, {auto: true}) = false`
under both policies. -/
theorem C4_trigger_decision :
    (∀ (b auto sd : Bool), decideA (some b) auto sd = b)
    ∧ (∀ (b auto : Bool), decideB (some b) auto = b)
    ∧ (∀ (auto sd : Bool), decideA none auto sd = (auto && sd))
    ∧ (∀ (auto : Bool), decideB none auto = auto)
    ∧ decideA (some true) false false = true
    ∧ decideA (some false) true true = false
    ∧ decideB (some true) false = true
    ∧ decideB (some false) true = false :=
  ⟨fun _ _ _ => rfl, fun _ _ => rfl, fun _ _ => rfl, fun _ => rfl, rfl, rfl, rfl, rfl⟩

/-- Counterexample for C5: the built-in generic fallback note in the code is
`"Allow the character to transition to a new scene that makes sense."`, not
the string `"transition the characters to a new scene that makes sense"`
quoted by the claim. -/
theorem C5_counterexample :
    resolveNote none = "Allow the character to transition to a new scene that makes sense."
    ∧ ¬ (resolveNote none = "transition the characters to a new scene that makes sense") := by
  constructor <;> decide

/-- C5 (amended): the composer includes the style line
`"Style hint: " + style` exactly when the style is non-empty, and never omits
the notes line: an absent, non-string, or whitespace-only note resolves to the
built-in generic instruction `"Allow the character to transition to a new
scene that makes sense."` before the notes line is built, so the note never
resolves to emptiness. -/
theorem C5_style_and_notes :
    (∀ s : String, s ≠ "" → styleLine (some s) = "Style hint: " ++ s)
    ∧ styleLine none = ""
    ∧ styleLine (some "") = ""
    ∧ (∀ n0 : Named0, n0.style = none ∨ n0.style = some "" → styleLine (styleOf n0) = "")
    ∧ (∀ u : Option String, resolveNote u ≠ "")
    ∧ (∀ u : Option String, notesLine (resolveNote u) = "Scene notes: " ++ resolveNote u)
    ∧ (∀ s : String, jsTrim s = "" → resolveNote (some s) = defaultNote)
    ∧ resolveNote none = defaultNote := by
  have hne : ∀ u : Option String, resolveNote u ≠ "" := by
    intro u
    cases u with
    | none => decide
    | some s =>
      show (if jsTrim s ≠ "" then s else defaultNote) ≠ ""
      by_cases h : jsTrim s ≠ ""
      · rw [if_pos h]
        intro h0
        rw [h0] at h
        exact h (by decide)
      · rw [if_neg h]
        decide
  refine ⟨?_, rfl, by decide, ?_, hne, ?_, ?_, rfl⟩
  · intro s hs
    show (if s ≠ "" then "Style hint: " ++ s else "") = "Style hint: " ++ s
    rw [if_pos hs]
  · intro n0 h
    rcases h with h | h <;> simp [styleOf, styleLine, h]
  · intro u
    unfold notesLine
    rw [if_pos (hne u)]
  · intro s h
    simp [resolveNote, h]

/-- Witness for C5: a non-empty style yields the style line, a whitespace
note falls back to the generic note, and the notes line is present for the
absent note. -/
theorem C5_witness :
    styleLine (some "noir") = "Style hint: noir"
    ∧ resolveNote (some "  ") = defaultNote
    ∧ notesLine (resolveNote none) = "Scene notes: " ++ resolveNote none := by
  refine ⟨C5_style_and_notes.1 "noir" (by decide), ?_, ?_⟩
  · exact C5_style_and_notes.2.2.2.2.2.2.1 "  " (by decide)
  · exact C5_style_and_notes.2.2.2.2.2.1 none

/-- Counterexample for C2: in the full-featured variant, a backend that
throws `Error("boom")` yields the diagnostic placeholder built from the note
and style only — the error's message text is *not* embedded, so the result
does not contain `"boom"`. -/
theorem C2_counterexample :
    (generateSceneLine0 { ctxBase with genResult := Except.error "boom" } "x" none "120").line
      = "[DEBUG] Scene transition test - x "
    ∧ strContainsSub
        (generateSceneLine0 { ctxBase with genResult := Except.error "boom" } "x" none "120").line
        "boom" = false := by
  constructor <;> decide

/-- C2 (amended): `invoke()` never raises — it is a total function in both
variants.  If the capability is structurally unavailable a diagnostic
placeholder is returned; if the capability is available but its call raises,
the same placeholder pattern is returned instead of propagating the error.
Only the simplified variant embeds the error's message text in the raising
path (`"[DEBUG] Scene transition failed: " + message`, so `"boom"` occurs in
the result); the full-featured variant's placeholder embeds the note and
style but not the message. -/
theorem C2_invoke_never_raises :
    (∀ (ctx : Ctx) (i : String) (s : Option String) (mt m : String) (es : ExtSettings),
      ctx.genAvailable = true → ctx.extSettings = some es → ctx.genResult = .error m →
      (generateSceneLine0 ctx i s mt).line = testMessage0 i s)
    ∧ (∀ (ctx : Ctx) (m : String) (es : ExtSettings),
      ctx.genAvailable = true → ctx.extSettings = some es → ctx.genResult = .error m →
      generateSceneLine1 ctx = "[DEBUG] Scene transition failed: " ++ m
      ∧ ∃ p, generateSceneLine1 ctx = p ++ m)
    ∧ (∀ (ctx : Ctx) (i : String) (s : Option String) (mt : String),
      ctx.genAvailable = false →
      (generateSceneLine0 ctx i s mt).line = testMessage0 i s
      ∧ generateSceneLine1 ctx = "[DEBUG] Scene transition failed") := by
  refine ⟨?_, ?_, ?_⟩
  · intro ctx i s mt m es _hga _hes herr
    exact gen0_placeholder ctx i s mt (Or.inr ⟨m, herr⟩)
  · intro ctx m es hga hes herr
    have hgs := getSettingsWith_ok default1Instr ctx es hes
    have h1 : generateSceneLine1 ctx = "[DEBUG] Scene transition failed: " ++ m := by
      unfold generateSceneLine1
      simp [hga, getSettings1, hgs, herr]
    exact ⟨h1, ⟨"[DEBUG] Scene transition failed: ", h1⟩⟩
  · intro ctx i s mt hga
    constructor
    · exact gen0_placeholder ctx i s mt (Or.inl hga)
    · unfold generateSceneLine1
      simp [hga]

/-- Witness for C2: in the simplified variant a backend throwing
`Error("boom")` yields a placeholder that contains `"boom"`. -/
theorem C2_witness :
    generateSceneLine1 { ctxBase with genResult := Except.error "boom" }
      = "[DEBUG] Scene transition failed: " ++ "boom"
    ∧ strContainsSub (generateSceneLine1 { ctxBase with genResult := Except.error "boom" })
        "boom" = true := by
  have h := C2_invoke_never_raises.2.1 { ctxBase with genResult := Except.error "boom" }
    "boom" ⟨some ⟨none, some false⟩, some ⟨some "auto"⟩⟩ rfl rfl rfl
  exact ⟨h.1, by decide⟩

/-- C6: a background trigger whose underlying click action throws never
changes the returned outcome string and never removes the already-appended
message: with the explicit background flag set and a failing click, both
variants still return `"Scene line inserted."`, the message is in the
conversation, and the trigger step did fire. -/
theorem C6_bg_failure_harmless (ctx : Ctx) (n0 : Named0) (u : Option String) (n1 : Named1)
    (m : String) (es : ExtSettings)
    (_hbg : ctx.bgClick = .error m)
    (hr : ctx.emitReceived = .ok ()) (ha : ctx.addOne = .ok ())
    (hd : ctx.emitRendered = .ok ()) (hs : ctx.saveChat = .ok ())
    (hes : ctx.extSettings = some es)
    (hb0 : n0.background = some true) (hb1 : n1.background = some "true")
    (hl0 : (generateSceneLine0 ctx (resolveNote u) (styleOf n0) (maxOf n0)).line ≠ "")
    (hl1 : generateSceneLine1 ctx ≠ "") :
    (sceneTransitionCallback0 ctx n0 u).outcome = "Scene line inserted."
    ∧ buildAssistantMessage ctx
        (generateSceneLine0 ctx (resolveNote u) (styleOf n0) (maxOf n0)).line
        ∈ (sceneTransitionCallback0 ctx n0 u).chat
    ∧ (sceneTransitionCallback0 ctx n0 u).bgFired = true
    ∧ (sceneTransitionCallback1 ctx n1).outcome = "Scene line inserted."
    ∧ buildAssistantMessage ctx (generateSceneLine1 ctx) ∈ (sceneTransitionCallback1 ctx n1).chat
    ∧ (sceneTransitionCallback1 ctx n1).bgFired = true := by
  obtain ⟨o0, c0, _p0⟩ := callback0_success ctx n0 u es hr ha hd hs hes hl0
  obtain ⟨o1, c1⟩ := callback1_success ctx n1 es hr ha hd hs hes hl1
  have hins0 := insertAssistantMessage_ok ctx
    (generateSceneLine0 ctx (resolveNote u) (styleOf n0) (maxOf n0)).line hr ha hd hs
  have hins1 := insertAssistantMessage_ok ctx (generateSceneLine1 ctx) hr ha hd hs
  have hgs0 := getSettingsWith_ok default0Instr ctx es hes
  have hgs1 := getSettingsWith_ok default1Instr ctx es hes
  refine ⟨o0, ?_, ?_, o1, ?_, ?_⟩
  · rw [c0]
    simp
  · simp only [sceneTransitionCallback0, hb0]
    split
    case isFalse h => exact absurd hl0 h
    case isTrue _ =>
      rw [hins0]
      simp only [getSettings0, hgs0]
      split
      · split <;> rfl
      · rename_i hsb
        exact absurd rfl hsb
  · rw [c1]
    simp
  · simp only [sceneTransitionCallback1, hb1]
    split
    case isFalse h => exact absurd hl1 h
    case isTrue _ =>
      rw [hins1]
      simp only [getSettings1, hgs1]
      split
      · split <;> rfl
      · rename_i hsb
        exact absurd rfl hsb

/-- Witness for C6: a failing click under an explicit `background=true` still
yields the success outcome in both variants. -/
theorem C6_witness :
    (sceneTransitionCallback0 { ctxBase with bgClick := Except.error "click failed" }
        ⟨none, none, some true⟩ none).outcome = "Scene line inserted."
    ∧ (sceneTransitionCallback1 { ctxBase with bgClick := Except.error "click failed" }
        ⟨some "true"⟩).outcome = "Scene line inserted." := by
  have h := C6_bg_failure_harmless { ctxBase with bgClick := Except.error "click failed" }
    ⟨none, none, some true⟩ none ⟨some "true"⟩ "click failed"
    ⟨some ⟨none, some false⟩, some ⟨some "auto"⟩⟩
    rfl rfl rfl rfl rfl rfl rfl rfl (by decide) (by decide)
  exact ⟨h.1, h.2.2.2.1⟩

/-- Counterexample for C7: the availability probe *is* evaluated even when
the explicit background flag is defined (first conjunct), and even when the
persisted auto-trigger flag is false (second conjunct) — the probe call is
hoisted unconditionally before the decision. -/
theorem C7_counterexample :
    (sceneTransitionCallback0 ctxBase ⟨none, none, some true⟩ none).probeEvaluated = true
    ∧ (sceneTransitionCallback0 ctxBase named0Base none).probeEvaluated = true := by
  constructor <;> decide

/-- C7 (amended): the decision *expression* is insensitive to the probe's
value in the short-circuit cases — when the explicit flag is defined the
result ignores the probe entirely, and under Policy A a false auto-trigger
flag forces a false decision for any probe value — but the probe itself is
evaluated unconditionally on every path that reaches the background-decision
step; under Policy B (variant 1) the probe is never evaluated at all. -/
theorem C7_probe_behavior :
    (∀ (ctx : Ctx) (n0 : Named0) (u : Option String) (es : ExtSettings),
      ctx.emitReceived = .ok () → ctx.addOne = .ok () →
      ctx.emitRendered = .ok () → ctx.saveChat = .ok () →
      ctx.extSettings = some es →
      (generateSceneLine0 ctx (resolveNote u) (styleOf n0) (maxOf n0)).line ≠ "" →
      (sceneTransitionCallback0 ctx n0 u).probeEvaluated = true)
    ∧ (∀ (fl auto sd sd' : Bool), decideA (some fl) auto sd = decideA (some fl) auto sd')
    ∧ (∀ (sd sd' : Bool), decideA none false sd = decideA none false sd')
    ∧ (∀ (ctx : Ctx) (n1 : Named1), (sceneTransitionCallback1 ctx n1).probeEvaluated = false) := by
  refine ⟨?_, fun _ _ _ _ => rfl, fun _ _ => rfl, ?_⟩
  · intro ctx n0 u es hr ha hd hs hes hl
    exact (callback0_success ctx n0 u es hr ha hd hs hes hl).2.2
  · intro ctx n1
    simp only [sceneTransitionCallback1]
    repeat first | rfl | split

/-- Witness for C7 (amended): the probe statement runs on the baseline
success path. -/
theorem C7_witness :
    (sceneTransitionCallback0 ctxBase ⟨some "noir", none, none⟩ none).probeEvaluated = true :=
  C7_probe_behavior.1 ctxBase ⟨some "noir", none, none⟩ none
    ⟨some ⟨none, some false⟩, some ⟨some "auto"⟩⟩ rfl rfl rfl rfl rfl (by decide)

/-- Counterexample for C8: `max` is supplied (as the empty string — the code
uses `||`, not `??`) yet the default budget 120 is passed to generation, so
the supplied value is not used whenever present and the default is not used
exactly when absent. -/
theorem C8_counterexample :
    (sceneTransitionCallback0 ctxBase ⟨none, some "", none⟩ none).budgetUsed = some 120 := by
  decide

/-- C8 (amended): generation is invoked with the token budget
`Number(max)` whenever `max` is supplied as a non-empty string — including
`"0"`, which yields budget 0 — and with the default 120 exactly when `max` is
absent or the empty string (the code chains `named?.max || "120"` with
`maxTokens ? Number(maxTokens) : 120`). -/
theorem C8_token_budget :
    (∀ (ctx : Ctx) (n0 : Named0) (u : Option String) (s : String) (n : Nat) (es : ExtSettings),
      ctx.genAvailable = true → ctx.extSettings = some es →
      n0.max = some s → s ≠ "" → decToNat s = some n →
      (sceneTransitionCallback0 ctx n0 u).budgetUsed = some n)
    ∧ (∀ (ctx : Ctx) (n0 : Named0) (u : Option String) (es : ExtSettings),
      ctx.genAvailable = true → ctx.extSettings = some es → n0.max = none →
      (sceneTransitionCallback0 ctx n0 u).budgetUsed = some 120)
    ∧ (∀ (ctx : Ctx) (n0 : Named0) (u : Option String) (es : ExtSettings),
      ctx.genAvailable = true → ctx.extSettings = some es → n0.max = some "" →
      (sceneTransitionCallback0 ctx n0 u).budgetUsed = some 120) := by
  refine ⟨?_, ?_, ?_⟩
  · intro ctx n0 u s n es hga hes hmax hne htn
    rw [callback0_budget, gen0_budget ctx (resolveNote u) (styleOf n0) (maxOf n0) es hga hes]
    have hm : maxOf n0 = s := by simp [maxOf, hmax, hne]
    rw [hm, if_pos hne]
    unfold jsNumber
    rw [htn]
    rfl
  · intro ctx n0 u es hga hes hmax
    rw [callback0_budget, gen0_budget ctx (resolveNote u) (styleOf n0) (maxOf n0) es hga hes]
    have hm : maxOf n0 = "120" := by simp [maxOf, hmax]
    rw [hm]
    decide
  · intro ctx n0 u es hga hes hmax
    rw [callback0_budget, gen0_budget ctx (resolveNote u) (styleOf n0) (maxOf n0) es hga hes]
    have hm : maxOf n0 = "120" := by simp [maxOf, hmax]
    rw [hm]
    decide

/-- Witness for C8 (amended): `max="0"` yields budget 0 (the supplied value,
not the default), and an absent `max` yields 120. -/
theorem C8_witness :
    (sceneTransitionCallback0 ctxBase ⟨none, some "0", none⟩ none).budgetUsed = some 0
    ∧ (sceneTransitionCallback0 ctxBase named0Base none).budgetUsed = some 120 := by
  constructor
  · exact C8_token_budget.1 ctxBase ⟨none, some "0", none⟩ none "0" 0
      ⟨some ⟨none, some false⟩, some ⟨some "auto"⟩⟩ rfl rfl rfl (by decide) (by decide)
  · exact C8_token_budget.2.1 ctxBase named0Base none
      ⟨some ⟨none, some false⟩, some ⟨some "auto"⟩⟩ rfl rfl rfl

/-- C9: when the quiet-generation capability is unavailable or its call
raises, the generated line is the diagnostic placeholder — a non-empty string
beginning with `[DEBUG]` — so neither variant returns
`"No output generated."` in those cases, and both push the placeholder onto
the conversation as if it were a real generated line. -/
theorem C9_placeholder_inserted (ctx : Ctx) (n0 : Named0) (u : Option String) (n1 : Named1)
    (hfail : ctx.genAvailable = false ∨ ∃ m, ctx.genResult = .error m) :
    (∃ rest, (generateSceneLine0 ctx (resolveNote u) (styleOf n0) (maxOf n0)).line
        = "[DEBUG]" ++ rest)
    ∧ (generateSceneLine0 ctx (resolveNote u) (styleOf n0) (maxOf n0)).line ≠ ""
    ∧ (sceneTransitionCallback0 ctx n0 u).outcome ≠ "No output generated."
    ∧ (sceneTransitionCallback0 ctx n0 u).chat
        = ctx.chat ++ [buildAssistantMessage ctx
            (generateSceneLine0 ctx (resolveNote u) (styleOf n0) (maxOf n0)).line]
    ∧ (∃ rest, generateSceneLine1 ctx = "[DEBUG]" ++ rest)
    ∧ generateSceneLine1 ctx ≠ ""
    ∧ (sceneTransitionCallback1 ctx n1).outcome ≠ "No output generated."
    ∧ (sceneTransitionCallback1 ctx n1).chat
        = ctx.chat ++ [buildAssistantMessage ctx (generateSceneLine1 ctx)] := by
  have h0 : (generateSceneLine0 ctx (resolveNote u) (styleOf n0) (maxOf n0)).line
      = testMessage0 (resolveNote u) (styleOf n0) :=
    gen0_placeholder ctx (resolveNote u) (styleOf n0) (maxOf n0) hfail
  obtain ⟨r0, hr0⟩ := testMessage0_debug (resolveNote u) (styleOf n0)
  have hd0 : (generateSceneLine0 ctx (resolveNote u) (styleOf n0) (maxOf n0)).line
      = "[DEBUG]" ++ r0 := h0.trans hr0
  have hne0 : (generateSceneLine0 ctx (resolveNote u) (styleOf n0) (maxOf n0)).line ≠ "" := by
    rw [hd0]
    exact debug_append_ne_empty r0
  obtain ⟨r1, hd1⟩ := gen1_placeholder ctx hfail
  have hne1 : generateSceneLine1 ctx ≠ "" := by
    rw [hd1]
    exact debug_append_ne_empty r1
  refine ⟨⟨r0, hd0⟩, hne0, ?_, callback0_chat_of_ne ctx n0 u hne0,
    ⟨r1, hd1⟩, hne1, ?_, callback1_chat_of_ne ctx n1 hne1⟩
  · rcases callback0_outcome_of_ne ctx n0 u hne0 with h | ⟨m, h⟩
    · rw [h]
      decide
    · rw [h]
      exact err_ne_noOutput m
  · rcases callback1_outcome_of_ne ctx n1 hne1 with h | ⟨m, h⟩
    · rw [h]
      decide
    · rw [h]
      exact err_ne_noOutput m

/-- Witness for C9: an unwired capability yields a non-empty placeholder and
an outcome different from `"No output generated."`. -/
theorem C9_witness :
    (generateSceneLine0 { ctxBase with genAvailable := false }
        (resolveNote none) (styleOf named0Base) (maxOf named0Base)).line ≠ ""
    ∧ (sceneTransitionCallback0 { ctxBase with genAvailable := false }
        named0Base none).outcome ≠ "No output generated."
    ∧ (sceneTransitionCallback1 { ctxBase with genAvailable := false }
        ⟨none⟩).outcome ≠ "No output generated." := by
  have h := C9_placeholder_inserted { ctxBase with genAvailable := false }
    named0Base none ⟨none⟩ (Or.inl rfl)
  exact ⟨h.2.1, h.2.2.1, h.2.2.2.2.2.2.1⟩

/-- C10: message insertion is not atomic — the message is pushed onto the
in-memory conversation before notification, rendering, and saving are
attempted, with no rollback: if one of those steps throws, the callback
returns `"Error: <message>"` while the conversation still contains the
appended message (third conjunct: the push precedes the fallible steps for
every text). -/
theorem C10_push_before_failure (ctx : Ctx) (n0 : Named0) (u : Option String) (m : String)
    (hl : (generateSceneLine0 ctx (resolveNote u) (styleOf n0) (maxOf n0)).line ≠ "")
    (hins : (insertAssistantMessage ctx
        (generateSceneLine0 ctx (resolveNote u) (styleOf n0) (maxOf n0)).line).2 = some m) :
    (sceneTransitionCallback0 ctx n0 u).outcome = "Error: " ++ m
    ∧ (sceneTransitionCallback0 ctx n0 u).chat
        = ctx.chat ++ [buildAssistantMessage ctx
            (generateSceneLine0 ctx (resolveNote u) (styleOf n0) (maxOf n0)).line]
    ∧ (∀ text, (insertAssistantMessage ctx text).1
        = ctx.chat ++ [buildAssistantMessage ctx text]) := by
  have hpair : insertAssistantMessage ctx
      (generateSceneLine0 ctx (resolveNote u) (styleOf n0) (maxOf n0)).line
      = (ctx.chat ++ [buildAssistantMessage ctx
          (generateSceneLine0 ctx (resolveNote u) (styleOf n0) (maxOf n0)).line], some m) :=
    Prod.ext (insertAssistantMessage_fst ctx _) hins
  refine ⟨?_, callback0_chat_of_ne ctx n0 u hl, insertAssistantMessage_fst ctx⟩
  simp only [sceneTransitionCallback0]
  split
  case isTrue _ =>
    rw [hpair]
  case isFalse h => exact absurd hl h

/-- Witness for C10: a failing `saveChat` yields the error outcome while the
message remains in the conversation. -/
theorem C10_witness :
    (sceneTransitionCallback0 { ctxBase with saveChat := Except.error "save failed" }
        named0Base none).outcome = "Error: " ++ "save failed"
    ∧ (sceneTransitionCallback0 { ctxBase with saveChat := Except.error "save failed" }
        named0Base none).chat
      = [] ++ [buildAssistantMessage { ctxBase with saveChat := Except.error "save failed" }
          (generateSceneLine0 { ctxBase with saveChat := Except.error "save failed" }
            (resolveNote none) (styleOf named0Base) (maxOf named0Base)).line] := by
  have h := C10_push_before_failure { ctxBase with saveChat := Except.error "save failed" }
    named0Base none "save failed" (by decide) (by decide)
  exact ⟨h.1, h.2.1⟩
